import Mathlib

/-!
Shallow embedding of the GitHub repository monitoring engine of the ARL
repository, together with theorems checking its specification.

Modelling conventions, shared by all definitions below:

* The MongoDB collections are modelled as Lean lists of records.  `find_one`
  and `find_one_and_replace` act on the first record matching the `_id`
  filter; `delete_many` filters out every matching record; `insert_one`
  appends.  Document `_id` keys are modelled as `String`.
* Epoch timestamps (`time.time()`) are modelled as `Int` seconds; the
  human-readable date strings produced by `utils.time2date` / `utils.curr_date`
  are modelled through explicit function parameters of type `Int → String`
  resp. plain `String` arguments, since those helpers live outside the
  translated sources.
* `crontab.CronTab(expr).next(now)` (the external cron evaluator, assumed
  correct by the spec) is modelled as a function parameter
  `cronNext : String → Int → Int` giving the seconds until the next fire of a
  cron expression relative to a reference instant.
* External effects (the Celery enqueue, the GitHub HTTP call, the DingTalk
  HTTP call) are modelled as `Except` parameters describing the outcome the
  environment produces; `Except.error` stands for a raised exception (for the
  GitHub call it also covers a non-200 status, which the source maps to the
  same empty result).
* Python falsy checks on strings/lists (`if not s:`) are modelled as
  emptiness tests.
-/

set_option autoImplicit false

/-- `app.modules.SchedulerStatus` values used by the scheduler records. -/
inductive SchedulerStatus where
  | RUNNING
  | STOP
  deriving DecidableEq, Repr

/-- `app.modules.TaskStatus` plus the free-text phase labels written by the
task body via `update_status`. -/
inductive TaskStatus where
  | WAITING
  | DONE
  | ERROR
  | phase (label : String)
  deriving DecidableEq, Repr

/-- Error responses built by `app.routes.github_repo_scheduler` through
`utils.build_ret` (`app.modules.ErrorMsg`). -/
inductive ErrorMsg where
  | JobNotFound
  | SchedulerStatusNotRunning
  | SchedulerStatusNotStop
  deriving DecidableEq, Repr

/-- A document of the `github_repo_scheduler` collection (shape produced by
`ARLGithubRepoScheduler.post`). -/
structure SchedulerItem where
  id : String
  name : String
  repo_owner : String
  repo_name : String
  cron : String
  monitored_events : List String
  run_number : Nat
  last_run_date : String
  last_run_time : Int
  next_run_date : String
  status : SchedulerStatus
  deriving DecidableEq, Repr

/-- A document of the `github_repo_task` collection (shape produced by
`github_repo_cron_run` / `submit_github_repo_task`). -/
structure TaskRecord where
  task_id : String
  name : String
  repo_owner : String
  repo_name : String
  start_time : String
  end_time : String
  github_repo_scheduler_id : String
  status : TaskStatus
  celery_id : String
  deriving DecidableEq, Repr

/-- `app.utils.github_repo_task.submit_github_repo_task`.  `store` is the
`github_repo_task` collection, `newId` the `_id` MongoDB assigns to the
inserted document, `enqueue` the outcome of `celerytask.arl_github.delay`
(`Except.ok` carries the celery id, `Except.error` a raised exception's
message).  Returns the updated collection and either the task data or the
error string returned to the caller. -/
def submit_github_repo_task (store : List TaskRecord) (newId : String)
    (enqueue : Except String String) (task_data : TaskRecord) :
    List TaskRecord × Except String TaskRecord :=
  let inserted := { task_data with celery_id := "", task_id := newId }
  let store1 := store ++ [inserted]
  match enqueue with
  | Except.ok celery_id =>
      (store1.map (fun t => if t.task_id = newId then { t with celery_id := celery_id } else t),
       Except.ok { inserted with celery_id := celery_id })
  | Except.error e =>
      (store1.filter (fun t => t.task_id ≠ newId), Except.error e)

/-- `app.utils.github_repo_task.github_repo_cron_run`: submit the scheduled
monitoring task, then update the owning scheduler item (run counter,
last-run bookkeeping, recomputed next-run display).  The submit result is
discarded, exactly as in the source. -/
def github_repo_cron_run (cronNext : String → Int → Int) (time2date : Int → String)
    (curr_date : String) (now : Int) (newId : String) (enqueue : Except String String)
    (store : List TaskRecord) (item : SchedulerItem) :
    SchedulerItem × List TaskRecord :=
  let task_data : TaskRecord := {
    task_id := "",
    name := "GitHub仓库监控-" ++ item.name,
    repo_owner := item.repo_owner,
    repo_name := item.repo_name,
    start_time := "-",
    end_time := "-",
    github_repo_scheduler_id := item.id,
    status := TaskStatus.WAITING,
    celery_id := "" }
  let store1 := (submit_github_repo_task store newId enqueue task_data).1
  let now_time := now + 61
  let next_sec := cronNext item.cron now_time
  ({ item with
      run_number := item.run_number + 1,
      last_run_date := curr_date,
      last_run_time := now,
      next_run_date := time2date (now_time + next_sec - 60) }, store1)

/-- Loop body of `app.utils.github_repo_task.github_repo_scheduler` for one
scheduler item: skip non-RUNNING items, fire iff the next cron fire is less
than 60 seconds away and the last run lies more than 3 minutes in the past.
Returns the (possibly updated) item, whether it fired, and the task
collection. -/
def github_repo_scheduler_item (cronNext : String → Int → Int) (time2date : Int → String)
    (curr_date : String) (now : Int) (newId : String) (enqueue : Except String String)
    (store : List TaskRecord) (item : SchedulerItem) :
    SchedulerItem × Bool × List TaskRecord :=
  if item.status ≠ SchedulerStatus.RUNNING then
    (item, false, store)
  else
    let next_sec := cronNext item.cron now
    if next_sec < 60 ∧ (now - item.last_run_time).natAbs > 60 * 3 then
      let r := github_repo_cron_run cronNext time2date curr_date now newId enqueue store item
      (r.1, true, r.2)
    else
      (item, false, store)

/-- `app.utils.github_repo_task.github_repo_scheduler`: one scheduler tick
over every persisted item.  `env` supplies, per item, the fresh task `_id`
and the enqueue outcome. -/
def github_repo_scheduler (cronNext : String → Int → Int) (time2date : Int → String)
    (curr_date : String) (now : Int) (env : SchedulerItem → String × Except String String)
    (items : List SchedulerItem) (store : List TaskRecord) :
    List (SchedulerItem × Bool) × List TaskRecord :=
  items.foldl (fun acc item =>
    let r := github_repo_scheduler_item cronNext time2date curr_date now
      (env item).1 (env item).2 acc.2 item
    (acc.1 ++ [(r.1, r.2.1)], r.2.2)) ([], store)

/-- `app.utils.github_repo_task.find_github_repo_scheduler`: first document
of the `github_repo_scheduler` collection with the given `_id`. -/
def find_github_repo_scheduler : List SchedulerItem → String → Option SchedulerItem
  | [], _ => none
  | s :: rest, _id => if s.id = _id then some s else find_github_repo_scheduler rest _id

/-- `find_one_and_replace` on the `github_repo_scheduler` collection:
replaces the first document with the given `_id`. -/
def find_one_and_replace : List SchedulerItem → String → SchedulerItem → List SchedulerItem
  | [], _, _ => []
  | s :: rest, _id, x =>
      if s.id = _id then x :: rest else s :: find_one_and_replace rest _id x

/-- Item update performed by `stop_github_repo_task`. -/
def stop_scheduler_update (item : SchedulerItem) : SchedulerItem :=
  { item with status := SchedulerStatus.STOP, next_run_date := "-" }

/-- Item update performed by `recover_github_repo_task`. -/
def recover_scheduler_update (cronNext : String → Int → Int) (time2date : Int → String)
    (now : Int) (item : SchedulerItem) : SchedulerItem :=
  { item with
      status := SchedulerStatus.RUNNING,
      next_run_date := time2date (now + cronNext item.cron now) }

/-- `app.utils.github_repo_task.stop_github_repo_task` acting on the
`github_repo_scheduler` collection. -/
def stop_github_repo_task (st : List SchedulerItem) (_id : String) : List SchedulerItem :=
  if _id.length ≠ 24 then st
  else
    match find_github_repo_scheduler st _id with
    | none => st
    | some item => find_one_and_replace st _id (stop_scheduler_update item)

/-- `app.utils.github_repo_task.recover_github_repo_task` acting on the
`github_repo_scheduler` collection. -/
def recover_github_repo_task (cronNext : String → Int → Int) (time2date : Int → String)
    (now : Int) (st : List SchedulerItem) (_id : String) : List SchedulerItem :=
  if _id.length ≠ 24 then st
  else
    match find_github_repo_scheduler st _id with
    | none => st
    | some item => find_one_and_replace st _id (recover_scheduler_update cronNext time2date now item)

/-- `StopGithubRepoScheduler.post` of `app.routes.github_repo_scheduler`,
restricted to a single id of the posted list: not-found and
status-not-RUNNING checks, then the stop util.  The second component is the
error reported through `utils.build_ret`, `none` on success. -/
def StopGithubRepoScheduler_post (st : List SchedulerItem) (_id : String) :
    List SchedulerItem × Option ErrorMsg :=
  match find_github_repo_scheduler st _id with
  | none => (st, some ErrorMsg.JobNotFound)
  | some item =>
      if item.status ≠ SchedulerStatus.RUNNING then
        (st, some ErrorMsg.SchedulerStatusNotRunning)
      else
        (stop_github_repo_task st _id, none)

/-- `RecoverGithubRepoScheduler.post` of `app.routes.github_repo_scheduler`,
restricted to a single id of the posted list. -/
def RecoverGithubRepoScheduler_post (cronNext : String → Int → Int)
    (time2date : Int → String) (now : Int) (st : List SchedulerItem) (_id : String) :
    List SchedulerItem × Option ErrorMsg :=
  match find_github_repo_scheduler st _id with
  | none => (st, some ErrorMsg.JobNotFound)
  | some item =>
      if item.status ≠ SchedulerStatus.STOP then
        (st, some ErrorMsg.SchedulerStatusNotStop)
      else
        (recover_github_repo_task cronNext time2date now st _id, none)

/-- `ARLGithubRepoScheduler.post` (schedule creation) of
`app.routes.github_repo_scheduler`.  `check_flag` is the outcome of
`utils.check_cron_interval`, `next_sec` the seconds-until-next-fire from
`utils.check_cron`.  Returns `none` when the route answers with an error
instead of persisting an entry. -/
def AddGithubRepoScheduler_post (time2date : Int → String) (now : Int)
    (check_flag : Bool) (next_sec : Int) (newId : String)
    (name repo_owner repo_name cron : String) (monitored_events : List String) :
    Option SchedulerItem :=
  if repo_owner.trim = "" ∨ repo_name.trim = "" then none
  else if check_flag = false then none
  else some {
    id := newId,
    name := name,
    repo_owner := repo_owner.trim,
    repo_name := repo_name.trim,
    cron := cron,
    monitored_events :=
      if monitored_events = [] then ["PushEvent", "IssuesEvent", "PullRequestEvent"]
      else monitored_events,
    run_number := 0,
    last_run_date := "-",
    last_run_time := 0,
    next_run_date := time2date (now + next_sec),
    status := SchedulerStatus.RUNNING }

/-- `UpdateGithubRepoScheduler.post` of `app.routes.github_repo_scheduler`
applied to the found item: merge non-empty fields; when a cron expression is
supplied, validate it (`check_flag`) and recompute the next-run display.
Returns `none` when validation fails and the route answers without writing. -/
def UpdateGithubRepoScheduler_post (time2date : Int → String) (now : Int)
    (check_flag : Bool) (next_sec : Int)
    (name repo_owner repo_name cron : String) (monitored_events : List String)
    (item : SchedulerItem) : Option SchedulerItem :=
  let item1 := if name ≠ "" then { item with name := name } else item
  let item2 := if repo_owner ≠ "" then { item1 with repo_owner := repo_owner.trim } else item1
  let item3 := if repo_name ≠ "" then { item2 with repo_name := repo_name.trim } else item2
  let item4 := if monitored_events ≠ [] then { item3 with monitored_events := monitored_events } else item3
  if cron ≠ "" then
    if check_flag = false then none
    else some { item4 with next_run_date := time2date (now + next_sec), cron := cron }
  else some item4

/-- A raw event object of the GitHub activity API page as the source reads
it: its `id`, `type`, parsed `created_at` (`none` when missing or
unparsable, matching the falsy check in the source), actor login and
repository name. -/
structure RawEvent where
  id : String
  type : String
  created_at : Option Int
  actor : String
  repo_name : String
  deriving DecidableEq, Repr

/-- Default event-type list of `GithubRepoMonitor.__init__`
(`app.services.github_repo_monitor`). -/
def default_monitored_events : List String :=
  ["PushEvent", "IssuesEvent", "PullRequestEvent", "CreateEvent", "DeleteEvent", "ReleaseEvent"]

/-- `GithubRepoMonitor.__init__`: the monitored event types, defaulting when
`None` is passed. -/
def init_monitored_events : Option (List String) → List String
  | none => default_monitored_events
  | some l => l

/-- Per-event filter of `GithubRepoMonitor.fetch_events`: keep an event iff
its type is monitored and, when a since-instant is given, its creation time
is not known to be ≤ that instant. -/
def event_keep (monitored_events : List String) (since_time : Option Int)
    (e : RawEvent) : Bool :=
  monitored_events.contains e.type &&
    (match since_time with
     | none => true
     | some s =>
         match e.created_at with
         | none => true
         | some c => !(c ≤ s))

/-- `GithubRepoMonitor.fetch_events` (`app.services.github_repo_monitor`):
returns the filtered events and whether a call against the GitHub events
endpoint was attempted.  With no token configured it fails fast without a
call; a non-200 status or a raised transport error degrades to the empty
list. -/
def GithubRepoMonitor.fetch_events (github_token : String)
    (monitored_events : List String) (since_time : Option Int)
    (http_result : Except String (List RawEvent)) : List RawEvent × Bool :=
  if github_token = "" then ([], false)
  else
    match http_result with
    | Except.error _ => ([], true)
    | Except.ok data => (data.filter (event_keep monitored_events since_time), true)

/-- `app.services.github_repo_monitor.monitor_github_repo`. -/
def monitor_github_repo (github_token : String) (repo_owner repo_name : String)
    (since_time : Option Int) (monitored_events : Option (List String))
    (http_result : Except String (List RawEvent)) : List RawEvent × Bool :=
  GithubRepoMonitor.fetch_events github_token (init_monitored_events monitored_events)
    since_time http_result

/-- `GithubRepoMonitorTask.fetch_events` (`app.tasks.github`): the scheduled
run's event fetch.  Note that it passes `none` for the monitored event
types, so `monitor_github_repo` falls back to the hard-coded default list. -/
def GithubRepoMonitorTask.fetch_events (github_token : String)
    (repo_owner repo_name : String) (since_time : Option Int)
    (http_result : Except String (List RawEvent)) : List RawEvent × Bool :=
  monitor_github_repo github_token repo_owner repo_name since_time none http_result

/-- A document of the `github_repo_event` collection; the
`(event_id, github_repo_scheduler_id)` pair is the dedup fingerprint. -/
structure EventRecord where
  event_id : String
  github_repo_scheduler_id : String
  github_repo_task_id : String
  deriving DecidableEq, Repr

/-- The existence check of `GithubRepoMonitorTask.save_events`: a record
with this event id already persisted for this scheduler. -/
def event_exists (store : List EventRecord) (scheduler_id : String) (e : RawEvent) : Bool :=
  store.any (fun r => r.event_id == e.id && r.github_repo_scheduler_id == scheduler_id)

/-- `GithubRepoMonitorTask.save_events` (`app.tasks.github`): insert each
event of the batch unless a record with the same `(event_id, scheduler)`
fingerprint already exists; the check runs against the store as grown so
far, so in-batch duplicates are also dropped. -/
def GithubRepoMonitorTask.save_events (scheduler_id task_id : String)
    (events : List RawEvent) (store : List EventRecord) : List EventRecord :=
  events.foldl (fun st e =>
    if event_exists st scheduler_id e then st
    else st ++ [{ event_id := e.id,
                  github_repo_scheduler_id := scheduler_id,
                  github_repo_task_id := task_id }]) store

/-- `GithubRepoMonitorTask.send_notification` (`app.tasks.github`): the
result is the event batch handed to `send_github_event_notification`, or
`none` when no webhook call is made (empty batch, or webhook URL not
configured). -/
def GithubRepoMonitorTask.send_notification (webhook_url : String)
    (events : List RawEvent) : Option (List RawEvent) :=
  if events.isEmpty then none
  else if webhook_url = "" then none
  else some events

/-- The `github_repo_task` document fields that the monitoring task body
mutates. -/
structure MonitorTaskRecord where
  status : TaskStatus
  start_time : Option String
  end_time : Option String
  statistic : Option Nat
  deriving DecidableEq, Repr

/-- Observable outcome of one execution of the monitoring task body: final
task record, event collection, whether a GitHub fetch was attempted, the
batch handed to the notification channel (`none` = no call), and the
sequence of statuses written through `update_status`. -/
structure MonitorRunResult where
  record : MonitorTaskRecord
  event_store : List EventRecord
  fetch_attempted : Bool
  notified : Option (List RawEvent)
  status_trace : List TaskStatus
  deriving DecidableEq, Repr

/-- `GithubRepoMonitorTask.run` (`app.tasks.github`) on the success path:
set start time, fetch, save, notify, record statistics, finish at DONE and
set the end time. -/
def GithubRepoMonitorTask.run (github_token : String)
    (repo_owner repo_name scheduler_id task_id : String) (since_time : Option Int)
    (http_result : Except String (List RawEvent)) (webhook_url : String)
    (curr_date : String) (store : List EventRecord) (task : MonitorTaskRecord) :
    MonitorRunResult :=
  let task1 := { task with start_time := some curr_date }
  let fetched := GithubRepoMonitorTask.fetch_events github_token repo_owner repo_name
    since_time http_result
  let events := fetched.1
  let store1 := GithubRepoMonitorTask.save_events scheduler_id task_id events store
  let notified := GithubRepoMonitorTask.send_notification webhook_url events
  { record := { task1 with
      status := TaskStatus.DONE,
      statistic := some events.length,
      end_time := some curr_date },
    event_store := store1,
    fetch_attempted := fetched.2,
    notified := notified,
    status_trace := [TaskStatus.phase "fetching events",
                     TaskStatus.phase ("saving " ++ toString events.length ++ " events"),
                     TaskStatus.DONE] }

/-- `app.tasks.github.github_repo_monitor_task`: the task entry point run by
the worker.  With no GitHub token configured the task goes straight to
ERROR with an end timestamp, touching nothing else. -/
def github_repo_monitor_task (github_token : String)
    (repo_owner repo_name scheduler_id task_id : String) (since_time : Option Int)
    (http_result : Except String (List RawEvent)) (webhook_url : String)
    (curr_date : String) (store : List EventRecord) (task : MonitorTaskRecord) :
    MonitorRunResult :=
  if github_token = "" then
    { record := { task with status := TaskStatus.ERROR, end_time := some curr_date },
      event_store := store,
      fetch_attempted := false,
      notified := none,
      status_trace := [TaskStatus.ERROR] }
  else
    GithubRepoMonitorTask.run github_token repo_owner repo_name scheduler_id task_id
      since_time http_result webhook_url curr_date store task

/-- The three collections touched by
`app.utils.github_repo_task.delete_github_repo_scheduler`. -/
structure RepoStore where
  github_repo_scheduler : List SchedulerItem
  github_repo_task : List TaskRecord
  github_repo_event : List EventRecord
  deriving Repr

/-- `app.utils.github_repo_task.delete_github_repo_scheduler`: no-op on a
malformed id, otherwise remove the scheduler document (`delete_one` on the
unique `_id` key, modelled by filtering that key) and `delete_many` every
event and task carrying the scheduler id. -/
def delete_github_repo_scheduler (_id : String) (st : RepoStore) : RepoStore :=
  if _id.length ≠ 24 then st
  else
    { github_repo_scheduler := st.github_repo_scheduler.filter (fun s => s.id ≠ _id),
      github_repo_event := st.github_repo_event.filter (fun e => e.github_repo_scheduler_id ≠ _id),
      github_repo_task := st.github_repo_task.filter (fun t => t.github_repo_scheduler_id ≠ _id) }

/-- A value of the JSON object a DingTalk send returns. -/
inductive DVal where
  | int (n : Int)
  | str (s : String)
  deriving DecidableEq, Repr

/-- A parsed JSON object (Python dict), as returned by the DingTalk sends. -/
abbrev DDict := List (String × DVal)

/-- The failure dictionary the DingTalk sends build in their error paths. -/
def errcode_fail (msg : String) : DDict :=
  [("errcode", DVal.int (-1)), ("errmsg", DVal.str msg)]

/-- URL signing of the DingTalk sends: when a secret is configured, append
the timestamp and signature query parameters produced by `_generate_sign`
(the HMAC itself is an external computation, modelled by the `timestamp` and
`sign` arguments). -/
def build_signed_url (webhook_url secret timestamp sign : String) : String :=
  if secret ≠ "" then webhook_url ++ "&timestamp=" ++ timestamp ++ "&sign=" ++ sign
  else webhook_url

/-- `DingTalkWebhook.send_text` (`app.services.dingtalk_webhook`).
`http_result` is the environment's outcome of posting the message and
parsing the response: `Except.ok` carries the parsed JSON object,
`Except.error` any exception raised inside the `try` block (transport
failure, JSON parse failure, or a non-object response body, all of which the
source catches).  Returns the request URL that was built (`none` when no
request is made) and the dictionary handed back to the caller.  The message
body itself does not influence the returned value and is kept as plain
arguments. -/
def DingTalkWebhook.send_text (webhook_url secret timestamp sign : String)
    (http_result : Except String DDict) (content : String)
    (at_mobiles : List String) (is_at_all : Bool) : Option String × DDict :=
  if webhook_url = "" then (none, errcode_fail "Webhook URL not configured")
  else
    let url := build_signed_url webhook_url secret timestamp sign
    match http_result with
    | Except.ok response => (some url, response)
    | Except.error e => (some url, errcode_fail e)

/-- `DingTalkWebhook.send_markdown` (`app.services.dingtalk_webhook`); same
control flow as `send_text` with a markdown message body. -/
def DingTalkWebhook.send_markdown (webhook_url secret timestamp sign : String)
    (http_result : Except String DDict) (title content : String)
    (at_mobiles : List String) (is_at_all : Bool) : Option String × DDict :=
  if webhook_url = "" then (none, errcode_fail "Webhook URL not configured")
  else
    let url := build_signed_url webhook_url secret timestamp sign
    match http_result with
    | Except.ok response => (some url, response)
    | Except.error e => (some url, errcode_fail e)

/-- `DingTalkWebhook.send_link` (`app.services.dingtalk_webhook`); same
control flow as `send_text` with a link message body. -/
def DingTalkWebhook.send_link (webhook_url secret timestamp sign : String)
    (http_result : Except String DDict) (title text message_url : String)
    (pic_url : Option String) : Option String × DDict :=
  if webhook_url = "" then (none, errcode_fail "Webhook URL not configured")
  else
    let url := build_signed_url webhook_url secret timestamp sign
    match http_result with
    | Except.ok response => (some url, response)
    | Except.error e => (some url, errcode_fail e)

/-- The scheduler-item mutations performed by the registry and the tick,
packaged as one operation type for stating cross-operation invariants. -/
inductive SchedulerOp where
  | tick (cronNext : String → Int → Int) (time2date : Int → String) (curr_date : String)
      (now : Int) (newId : String) (enqueue : Except String String) (store : List TaskRecord)
  | updateEntry (time2date : Int → String) (now : Int) (check_flag : Bool) (next_sec : Int)
      (name repo_owner repo_name cron : String) (monitored_events : List String)
  | stopEntry
  | recoverEntry (cronNext : String → Int → Int) (time2date : Int → String) (now : Int)

/-- Effect of one operation on a scheduler item (an update whose validation
fails writes nothing and leaves the item as it was). -/
def applySchedulerOp : SchedulerOp → SchedulerItem → SchedulerItem
  | SchedulerOp.tick cronNext time2date curr_date now newId enqueue store, item =>
      (github_repo_scheduler_item cronNext time2date curr_date now newId enqueue store item).1
  | SchedulerOp.updateEntry time2date now check_flag next_sec name ro rn cron me, item =>
      match UpdateGithubRepoScheduler_post time2date now check_flag next_sec name ro rn cron me item with
      | none => item
      | some i => i
  | SchedulerOp.stopEntry, item => stop_scheduler_update item
  | SchedulerOp.recoverEntry cronNext time2date now, item =>
      recover_scheduler_update cronNext time2date now item

theorem find_github_repo_scheduler_id_eq {st : List SchedulerItem} {_id : String}
    {item : SchedulerItem} (h : find_github_repo_scheduler st _id = some item) :
    item.id = _id := by
  induction st with
  | nil => simp [find_github_repo_scheduler] at h
  | cons s rest ih =>
    unfold find_github_repo_scheduler at h
    by_cases hs : s.id = _id
    · rw [if_pos hs] at h
      injection h with h2
      rw [← h2]
      exact hs
    · rw [if_neg hs] at h
      exact ih h

theorem find_github_repo_scheduler_replace {st : List SchedulerItem} {_id : String}
    (x : SchedulerItem) {item : SchedulerItem} (hx : x.id = _id)
    (h : find_github_repo_scheduler st _id = some item) :
    find_github_repo_scheduler (find_one_and_replace st _id x) _id = some x := by
  induction st with
  | nil => simp [find_github_repo_scheduler] at h
  | cons s rest ih =>
    unfold find_one_and_replace
    by_cases hs : s.id = _id
    · rw [if_pos hs]
      unfold find_github_repo_scheduler
      rw [if_pos hx]
    · rw [if_neg hs]
      unfold find_github_repo_scheduler
      rw [if_neg hs]
      unfold find_github_repo_scheduler at h
      rw [if_neg hs] at h
      exact ih h

theorem github_repo_scheduler_item_not_fired
    (cronNext : String → Int → Int) (time2date : Int → String) (curr_date : String)
    (now : Int) (newId : String) (enqueue : Except String String)
    (store : List TaskRecord) (item : SchedulerItem)
    (h : ¬(item.status = SchedulerStatus.RUNNING ∧ cronNext item.cron now < 60
            ∧ (now - item.last_run_time).natAbs > 180)) :
    github_repo_scheduler_item cronNext time2date curr_date now newId enqueue store item
      = (item, false, store) := by
  unfold github_repo_scheduler_item
  by_cases hs : item.status = SchedulerStatus.RUNNING
  · rw [if_neg (not_not_intro hs)]
    rw [if_neg]
    intro hc
    exact h ⟨hs, hc.1, by omega⟩
  · rw [if_pos hs]

theorem github_repo_scheduler_item_fired
    (cronNext : String → Int → Int) (time2date : Int → String) (curr_date : String)
    (now : Int) (newId : String) (enqueue : Except String String)
    (store : List TaskRecord) (item : SchedulerItem)
    (hs : item.status = SchedulerStatus.RUNNING)
    (h1 : cronNext item.cron now < 60)
    (h2 : (now - item.last_run_time).natAbs > 180) :
    github_repo_scheduler_item cronNext time2date curr_date now newId enqueue store item
      = ((github_repo_cron_run cronNext time2date curr_date now newId enqueue store item).1,
         true,
         (github_repo_cron_run cronNext time2date curr_date now newId enqueue store item).2) := by
  unfold github_repo_scheduler_item
  rw [if_neg (not_not_intro hs)]
  rw [if_pos ⟨h1, by omega⟩]

theorem update_scheduler_preserves_counters (time2date : Int → String) (now : Int)
    (check_flag : Bool) (next_sec : Int)
    (name repo_owner repo_name cron : String) (monitored_events : List String)
    (item : SchedulerItem) :
    ∀ i2, UpdateGithubRepoScheduler_post time2date now check_flag next_sec
        name repo_owner repo_name cron monitored_events item = some i2 →
      i2.run_number = item.run_number ∧ i2.last_run_time = item.last_run_time := by
  intro i2 h
  unfold UpdateGithubRepoScheduler_post at h
  split_ifs at h <;>
    first
    | exact Option.noConfusion h
    | (rw [← Option.some.inj h]; exact ⟨rfl, rfl⟩)

/-- Claim C1: on every scheduler tick, an entry is fired iff its status is
RUNNING, the seconds until its next cron fire are strictly less than 60 and
the absolute distance between now and its last-run timestamp is strictly
greater than 180 seconds; an entry last run 200 seconds ago (meeting the
other two conditions) fires, and re-ticking within the next 60 seconds does
not fire it again. -/
theorem github_repo_scheduler_fire_iff
    (cronNext : String → Int → Int) (time2date : Int → String) (curr_date : String)
    (now : Int) (newId : String) (enqueue : Except String String)
    (store : List TaskRecord) (item : SchedulerItem) :
    ((github_repo_scheduler_item cronNext time2date curr_date now newId enqueue store item).2.1 = true
      ↔ item.status = SchedulerStatus.RUNNING ∧ cronNext item.cron now < 60
          ∧ (now - item.last_run_time).natAbs > 180)
    ∧ (item.status = SchedulerStatus.RUNNING → cronNext item.cron now < 60 →
        item.last_run_time = now - 200 →
        (github_repo_scheduler_item cronNext time2date curr_date now newId enqueue store item).2.1 = true)
    ∧ (∀ now2 newId2 enqueue2 store2,
        item.status = SchedulerStatus.RUNNING → cronNext item.cron now < 60 →
        (now - item.last_run_time).natAbs > 180 →
        now ≤ now2 → now2 ≤ now + 60 →
        (github_repo_scheduler_item cronNext time2date curr_date now2 newId2 enqueue2 store2
          (github_repo_scheduler_item cronNext time2date curr_date now newId enqueue store item).1).2.1
          = false) := by
  refine ⟨?_, ?_, ?_⟩
  · constructor
    · intro h
      by_contra hneg
      rw [github_repo_scheduler_item_not_fired cronNext time2date curr_date now newId
        enqueue store item hneg] at h
      simp at h
    · intro hconj
      rw [github_repo_scheduler_item_fired cronNext time2date curr_date now newId
        enqueue store item hconj.1 hconj.2.1 hconj.2.2]
  · intro hs h1 hl
    rw [github_repo_scheduler_item_fired cronNext time2date curr_date now newId
      enqueue store item hs h1 (by rw [hl]; omega)]
  · intro now2 newId2 enqueue2 store2 hs h1 h2 hge hle
    rw [github_repo_scheduler_item_fired cronNext time2date curr_date now newId
      enqueue store item hs h1 h2]
    have hstat : (github_repo_cron_run cronNext time2date curr_date now newId enqueue
        store item).1.status = item.status := rfl
    have hlast : (github_repo_cron_run cronNext time2date curr_date now newId enqueue
        store item).1.last_run_time = now := rfl
    rw [github_repo_scheduler_item_not_fired]
    intro hconj
    rw [hlast] at hconj
    omega

theorem github_repo_scheduler_fire_iff_witness :
    (({ id := "s1", name := "n", repo_owner := "o", repo_name := "r",
        cron := "*/5 * * * *", monitored_events := ["PushEvent"], run_number := 0,
        last_run_date := "-", last_run_time := 800, next_run_date := "-",
        status := SchedulerStatus.RUNNING } : SchedulerItem).status = SchedulerStatus.RUNNING
      ∧ ((fun _ _ => (30 : Int)) "*/5 * * * *" 1000 : Int) < 60
      ∧ ((800 : Int) = 1000 - 200))
    ∧ (github_repo_scheduler_item (fun _ _ => 30) (fun _ => "d") "cd" 1000 "t1" (Except.ok "c") []
        { id := "s1", name := "n", repo_owner := "o", repo_name := "r",
          cron := "*/5 * * * *", monitored_events := ["PushEvent"], run_number := 0,
          last_run_date := "-", last_run_time := 800, next_run_date := "-",
          status := SchedulerStatus.RUNNING }).2.1 = true
    ∧ (github_repo_scheduler_item (fun _ _ => 30) (fun _ => "d") "cd" 1030 "t2" (Except.ok "c") []
        (github_repo_scheduler_item (fun _ _ => 30) (fun _ => "d") "cd" 1000 "t1" (Except.ok "c") []
          { id := "s1", name := "n", repo_owner := "o", repo_name := "r",
            cron := "*/5 * * * *", monitored_events := ["PushEvent"], run_number := 0,
            last_run_date := "-", last_run_time := 800, next_run_date := "-",
            status := SchedulerStatus.RUNNING }).1).2.1 = false :=
  ⟨⟨rfl, by decide, by decide⟩,
   (github_repo_scheduler_fire_iff (fun _ _ => 30) (fun _ => "d") "cd" 1000 "t1" (Except.ok "c") []
      { id := "s1", name := "n", repo_owner := "o", repo_name := "r",
        cron := "*/5 * * * *", monitored_events := ["PushEvent"], run_number := 0,
        last_run_date := "-", last_run_time := 800, next_run_date := "-",
        status := SchedulerStatus.RUNNING }).2.1 rfl (by decide) (by decide),
   (github_repo_scheduler_fire_iff (fun _ _ => 30) (fun _ => "d") "cd" 1000 "t1" (Except.ok "c") []
      { id := "s1", name := "n", repo_owner := "o", repo_name := "r",
        cron := "*/5 * * * *", monitored_events := ["PushEvent"], run_number := 0,
        last_run_date := "-", last_run_time := 800, next_run_date := "-",
        status := SchedulerStatus.RUNNING }).2.2 1030 "t2" (Except.ok "c") []
      rfl (by decide) (by decide) (by decide) (by decide)⟩

/-- Claim C2 (code bug): the scheduled run's event fetch keeps an event
whose type is outside the schedule entry's configured set of monitored
event-type tags.  `GithubRepoMonitorTask.fetch_events` passes no monitored
set to `monitor_github_repo`, which therefore filters against the hard-coded
default list; the same fetch with the entry's configured `["PushEvent"]`
set would have dropped the event. -/
theorem task_fetch_ignores_configured_events :
    (GithubRepoMonitorTask.fetch_events "tok" "o" "r" (some 50)
        (Except.ok [{ id := "e1", type := "IssuesEvent", created_at := some 100,
                      actor := "alice", repo_name := "o/r" }])).1
      = [{ id := "e1", type := "IssuesEvent", created_at := some 100,
           actor := "alice", repo_name := "o/r" }]
    ∧ (["PushEvent"] : List String).contains "IssuesEvent" = false
    ∧ (GithubRepoMonitor.fetch_events "tok" ["PushEvent"] (some 50)
        (Except.ok [{ id := "e1", type := "IssuesEvent", created_at := some 100,
                      actor := "alice", repo_name := "o/r" }])).1 = [] := by
  refine ⟨rfl, rfl, rfl⟩

/-- Claim C3 (code bug): reprocessing the same event batch for the same
schedule id persists no new event record (the save-side dedup is
idempotent), but the dispatched notification still carries the full batch on
the second run, because `send_notification` is fed the fetched events and
never the dedup-filtered ones. -/
theorem dedup_skips_persist_but_full_renotify :
    GithubRepoMonitorTask.save_events "s1" "t1"
        [{ id := "evt-1", type := "PushEvent", created_at := some 100,
           actor := "alice", repo_name := "o/r" }] []
      = [{ event_id := "evt-1", github_repo_scheduler_id := "s1",
           github_repo_task_id := "t1" }]
    ∧ GithubRepoMonitorTask.save_events "s1" "t2"
        [{ id := "evt-1", type := "PushEvent", created_at := some 100,
           actor := "alice", repo_name := "o/r" }]
        [{ event_id := "evt-1", github_repo_scheduler_id := "s1",
           github_repo_task_id := "t1" }]
      = [{ event_id := "evt-1", github_repo_scheduler_id := "s1",
           github_repo_task_id := "t1" }]
    ∧ GithubRepoMonitorTask.send_notification "https://oapi.example/robot"
        [{ id := "evt-1", type := "PushEvent", created_at := some 100,
           actor := "alice", repo_name := "o/r" }]
      = some [{ id := "evt-1", type := "PushEvent", created_at := some 100,
                actor := "alice", repo_name := "o/r" }] := by
  refine ⟨rfl, by decide, rfl⟩

/-- Claim C4: when the enqueue on the worker substrate fails,
`submit_github_repo_task` deletes the task record it just inserted and
returns the error to its caller, leaving the task collection exactly as it
was. -/
theorem submit_enqueue_failure_rolls_back
    (store : List TaskRecord) (newId : String) (e : String) (task_data : TaskRecord)
    (hfresh : ∀ t ∈ store, t.task_id ≠ newId) :
    (submit_github_repo_task store newId (Except.error e) task_data).1 = store
    ∧ (submit_github_repo_task store newId (Except.error e) task_data).2 = Except.error e := by
  constructor
  · unfold submit_github_repo_task
    simp only [List.filter_append]
    rw [List.filter_eq_self.mpr (fun t ht => by simpa using hfresh t ht)]
    simp
  · rfl

theorem submit_enqueue_failure_rolls_back_witness :
    (∀ t ∈ [({ task_id := "a", name := "x", repo_owner := "o", repo_name := "r",
               start_time := "-", end_time := "-", github_repo_scheduler_id := "s",
               status := TaskStatus.DONE, celery_id := "c" } : TaskRecord)], t.task_id ≠ "b")
    ∧ ((submit_github_repo_task
          [{ task_id := "a", name := "x", repo_owner := "o", repo_name := "r",
             start_time := "-", end_time := "-", github_repo_scheduler_id := "s",
             status := TaskStatus.DONE, celery_id := "c" }] "b" (Except.error "down")
          { task_id := "", name := "t", repo_owner := "o", repo_name := "r",
            start_time := "-", end_time := "-", github_repo_scheduler_id := "s",
            status := TaskStatus.WAITING, celery_id := "" }).1
        = [{ task_id := "a", name := "x", repo_owner := "o", repo_name := "r",
             start_time := "-", end_time := "-", github_repo_scheduler_id := "s",
             status := TaskStatus.DONE, celery_id := "c" }]
      ∧ (submit_github_repo_task
          [{ task_id := "a", name := "x", repo_owner := "o", repo_name := "r",
             start_time := "-", end_time := "-", github_repo_scheduler_id := "s",
             status := TaskStatus.DONE, celery_id := "c" }] "b" (Except.error "down")
          { task_id := "", name := "t", repo_owner := "o", repo_name := "r",
            start_time := "-", end_time := "-", github_repo_scheduler_id := "s",
            status := TaskStatus.WAITING, celery_id := "" }).2 = Except.error "down") :=
  ⟨by decide,
   submit_enqueue_failure_rolls_back _ "b" "down"
     { task_id := "", name := "t", repo_owner := "o", repo_name := "r",
       start_time := "-", end_time := "-", github_repo_scheduler_id := "s",
       status := TaskStatus.WAITING, celery_id := "" } (by decide)⟩

/-- Claim C7: with no GitHub token configured, a submitted task transitions
directly from WAITING to ERROR with its end timestamp set: no fetch against
the activity API is attempted, no event is stored, no notification is
dispatched, and ERROR is the only status ever written. -/
theorem missing_token_direct_to_error
    (repo_owner repo_name scheduler_id task_id : String) (since_time : Option Int)
    (http_result : Except String (List RawEvent)) (webhook_url curr_date : String)
    (store : List EventRecord) (task : MonitorTaskRecord)
    (htask : task.status = TaskStatus.WAITING) :
    (github_repo_monitor_task "" repo_owner repo_name scheduler_id task_id since_time
        http_result webhook_url curr_date store task).record.status = TaskStatus.ERROR
    ∧ (github_repo_monitor_task "" repo_owner repo_name scheduler_id task_id since_time
        http_result webhook_url curr_date store task).record.end_time = some curr_date
    ∧ (github_repo_monitor_task "" repo_owner repo_name scheduler_id task_id since_time
        http_result webhook_url curr_date store task).fetch_attempted = false
    ∧ (github_repo_monitor_task "" repo_owner repo_name scheduler_id task_id since_time
        http_result webhook_url curr_date store task).notified = none
    ∧ (github_repo_monitor_task "" repo_owner repo_name scheduler_id task_id since_time
        http_result webhook_url curr_date store task).event_store = store
    ∧ (github_repo_monitor_task "" repo_owner repo_name scheduler_id task_id since_time
        http_result webhook_url curr_date store task).status_trace = [TaskStatus.ERROR]
    ∧ GithubRepoMonitor.fetch_events "" default_monitored_events since_time http_result
        = ([], false) := by
  refine ⟨rfl, rfl, rfl, rfl, rfl, rfl, rfl⟩

theorem missing_token_direct_to_error_witness :
    (({ status := TaskStatus.WAITING, start_time := none, end_time := none,
        statistic := none } : MonitorTaskRecord).status = TaskStatus.WAITING)
    ∧ ((github_repo_monitor_task "" "o" "r" "s1" "t1" (some 50) (Except.ok []) "" "2026-01-01"
          [] { status := TaskStatus.WAITING, start_time := none, end_time := none,
               statistic := none }).record.status = TaskStatus.ERROR
      ∧ (github_repo_monitor_task "" "o" "r" "s1" "t1" (some 50) (Except.ok []) "" "2026-01-01"
          [] { status := TaskStatus.WAITING, start_time := none, end_time := none,
               statistic := none }).record.end_time = some "2026-01-01"
      ∧ (github_repo_monitor_task "" "o" "r" "s1" "t1" (some 50) (Except.ok []) "" "2026-01-01"
          [] { status := TaskStatus.WAITING, start_time := none, end_time := none,
               statistic := none }).fetch_attempted = false
      ∧ (github_repo_monitor_task "" "o" "r" "s1" "t1" (some 50) (Except.ok []) "" "2026-01-01"
          [] { status := TaskStatus.WAITING, start_time := none, end_time := none,
               statistic := none }).notified = none
      ∧ (github_repo_monitor_task "" "o" "r" "s1" "t1" (some 50) (Except.ok []) "" "2026-01-01"
          [] { status := TaskStatus.WAITING, start_time := none, end_time := none,
               statistic := none }).event_store = []
      ∧ (github_repo_monitor_task "" "o" "r" "s1" "t1" (some 50) (Except.ok []) "" "2026-01-01"
          [] { status := TaskStatus.WAITING, start_time := none, end_time := none,
               statistic := none }).status_trace = [TaskStatus.ERROR]
      ∧ GithubRepoMonitor.fetch_events "" default_monitored_events (some 50) (Except.ok [])
          = ([], false)) :=
  ⟨rfl,
   missing_token_direct_to_error "o" "r" "s1" "t1" (some 50) (Except.ok []) "" "2026-01-01"
     [] { status := TaskStatus.WAITING, start_time := none, end_time := none,
          statistic := none } rfl⟩

/-- Claim C8: deleting a schedule entry (with a well-formed 24-character id)
removes the entry itself and cascades over the task and event/fingerprint
collections, so no record carrying the deleted schedule id remains queryable
in any of the three collections. -/
theorem delete_scheduler_cascades (_id : String) (st : RepoStore)
    (hlen : _id.length = 24) :
    (∀ s ∈ (delete_github_repo_scheduler _id st).github_repo_scheduler, s.id ≠ _id)
    ∧ (∀ t ∈ (delete_github_repo_scheduler _id st).github_repo_task,
        t.github_repo_scheduler_id ≠ _id)
    ∧ (∀ e ∈ (delete_github_repo_scheduler _id st).github_repo_event,
        e.github_repo_scheduler_id ≠ _id) := by
  unfold delete_github_repo_scheduler
  rw [if_neg (not_not_intro hlen)]
  refine ⟨?_, ?_, ?_⟩ <;> intro r hr <;> simp only [List.mem_filter] at hr <;>
    simpa using hr.2

theorem delete_scheduler_cascades_witness :
    (("0123456789abcdef01234567" : String).length = 24)
    ∧ ((∀ s ∈ (delete_github_repo_scheduler "0123456789abcdef01234567"
          { github_repo_scheduler :=
              [{ id := "0123456789abcdef01234567", name := "n", repo_owner := "o",
                 repo_name := "r", cron := "*/5 * * * *", monitored_events := [],
                 run_number := 3, last_run_date := "-", last_run_time := 0,
                 next_run_date := "-", status := SchedulerStatus.RUNNING }],
            github_repo_task :=
              [{ task_id := "t1", name := "x", repo_owner := "o", repo_name := "r",
                 start_time := "-", end_time := "-",
                 github_repo_scheduler_id := "0123456789abcdef01234567",
                 status := TaskStatus.DONE, celery_id := "c" }],
            github_repo_event :=
              [{ event_id := "evt-1",
                 github_repo_scheduler_id := "0123456789abcdef01234567",
                 github_repo_task_id := "t1" }] }).github_repo_scheduler,
          s.id ≠ "0123456789abcdef01234567")
      ∧ (∀ t ∈ (delete_github_repo_scheduler "0123456789abcdef01234567"
          { github_repo_scheduler :=
              [{ id := "0123456789abcdef01234567", name := "n", repo_owner := "o",
                 repo_name := "r", cron := "*/5 * * * *", monitored_events := [],
                 run_number := 3, last_run_date := "-", last_run_time := 0,
                 next_run_date := "-", status := SchedulerStatus.RUNNING }],
            github_repo_task :=
              [{ task_id := "t1", name := "x", repo_owner := "o", repo_name := "r",
                 start_time := "-", end_time := "-",
                 github_repo_scheduler_id := "0123456789abcdef01234567",
                 status := TaskStatus.DONE, celery_id := "c" }],
            github_repo_event :=
              [{ event_id := "evt-1",
                 github_repo_scheduler_id := "0123456789abcdef01234567",
                 github_repo_task_id := "t1" }] }).github_repo_task,
          t.github_repo_scheduler_id ≠ "0123456789abcdef01234567")
      ∧ (∀ e ∈ (delete_github_repo_scheduler "0123456789abcdef01234567"
          { github_repo_scheduler :=
              [{ id := "0123456789abcdef01234567", name := "n", repo_owner := "o",
                 repo_name := "r", cron := "*/5 * * * *", monitored_events := [],
                 run_number := 3, last_run_date := "-", last_run_time := 0,
                 next_run_date := "-", status := SchedulerStatus.RUNNING }],
            github_repo_task :=
              [{ task_id := "t1", name := "x", repo_owner := "o", repo_name := "r",
                 start_time := "-", end_time := "-",
                 github_repo_scheduler_id := "0123456789abcdef01234567",
                 status := TaskStatus.DONE, celery_id := "c" }],
            github_repo_event :=
              [{ event_id := "evt-1",
                 github_repo_scheduler_id := "0123456789abcdef01234567",
                 github_repo_task_id := "t1" }] }).github_repo_event,
          e.github_repo_scheduler_id ≠ "0123456789abcdef01234567")) :=
  ⟨by decide,
   delete_scheduler_cascades "0123456789abcdef01234567" _ (by decide)⟩

/-- Claim C9: the notification dispatch invoked with an empty event list
makes no channel call at all (no webhook request is built or sent) and
returns without error. -/
theorem notification_dispatch_empty_noop (webhook_url : String) :
    GithubRepoMonitorTask.send_notification webhook_url [] = none := by
  simp [GithubRepoMonitorTask.send_notification]

/-- Claim C5: stopping an entry that is not RUNNING fails with the
invalid-state error and leaves the collection unchanged; recovering an entry
that is not STOPPED fails likewise; stop followed by recover on a RUNNING
entry succeeds and restores status RUNNING with a next-run timestamp ≥ now;
stopping twice in a row fails the second call. -/
theorem stop_recover_state_transitions
    (cronNext : String → Int → Int) (time2date : Int → String) (now : Int)
    (st : List SchedulerItem) (_id : String) (item : SchedulerItem)
    (hfind : find_github_repo_scheduler st _id = some item)
    (hlen : _id.length = 24)
    (hcron : 0 ≤ cronNext item.cron now) :
    (item.status ≠ SchedulerStatus.RUNNING →
      StopGithubRepoScheduler_post st _id = (st, some ErrorMsg.SchedulerStatusNotRunning))
    ∧ (item.status ≠ SchedulerStatus.STOP →
      RecoverGithubRepoScheduler_post cronNext time2date now st _id
        = (st, some ErrorMsg.SchedulerStatusNotStop))
    ∧ (item.status = SchedulerStatus.RUNNING →
      (StopGithubRepoScheduler_post st _id).2 = none
      ∧ (RecoverGithubRepoScheduler_post cronNext time2date now
          (StopGithubRepoScheduler_post st _id).1 _id).2 = none
      ∧ ∃ item2,
          find_github_repo_scheduler
            (RecoverGithubRepoScheduler_post cronNext time2date now
              (StopGithubRepoScheduler_post st _id).1 _id).1 _id = some item2
          ∧ item2.status = SchedulerStatus.RUNNING
          ∧ item2.next_run_date = time2date (now + cronNext item.cron now)
          ∧ now ≤ now + cronNext item.cron now)
    ∧ (item.status = SchedulerStatus.RUNNING →
      (StopGithubRepoScheduler_post (StopGithubRepoScheduler_post st _id).1 _id).2
        = some ErrorMsg.SchedulerStatusNotRunning) := by
  have hid : item.id = _id := find_github_repo_scheduler_id_eq hfind
  have hstop_store : stop_github_repo_task st _id
      = find_one_and_replace st _id (stop_scheduler_update item) := by
    unfold stop_github_repo_task
    rw [if_neg (not_not_intro hlen), hfind]
  have hstop_post : item.status = SchedulerStatus.RUNNING →
      StopGithubRepoScheduler_post st _id
        = (find_one_and_replace st _id (stop_scheduler_update item), none) := by
    intro hs
    simp only [StopGithubRepoScheduler_post, hfind]
    rw [if_neg (not_not_intro hs), hstop_store]
  have hfind1 : find_github_repo_scheduler
      (find_one_and_replace st _id (stop_scheduler_update item)) _id
        = some (stop_scheduler_update item) :=
    find_github_repo_scheduler_replace (stop_scheduler_update item) hid hfind
  have hrecover_store : recover_github_repo_task cronNext time2date now
      (find_one_and_replace st _id (stop_scheduler_update item)) _id
        = find_one_and_replace (find_one_and_replace st _id (stop_scheduler_update item)) _id
            (recover_scheduler_update cronNext time2date now (stop_scheduler_update item)) := by
    unfold recover_github_repo_task
    rw [if_neg (not_not_intro hlen), hfind1]
  have hstopped_status : (stop_scheduler_update item).status = SchedulerStatus.STOP := rfl
  have hrecover_post : RecoverGithubRepoScheduler_post cronNext time2date now
      (find_one_and_replace st _id (stop_scheduler_update item)) _id
        = (find_one_and_replace (find_one_and_replace st _id (stop_scheduler_update item)) _id
            (recover_scheduler_update cronNext time2date now (stop_scheduler_update item)),
           none) := by
    simp only [RecoverGithubRepoScheduler_post, hfind1]
    rw [if_neg (not_not_intro hstopped_status), hrecover_store]
  have hfind2 : find_github_repo_scheduler
      (find_one_and_replace (find_one_and_replace st _id (stop_scheduler_update item)) _id
        (recover_scheduler_update cronNext time2date now (stop_scheduler_update item))) _id
        = some (recover_scheduler_update cronNext time2date now (stop_scheduler_update item)) :=
    find_github_repo_scheduler_replace
      (recover_scheduler_update cronNext time2date now (stop_scheduler_update item)) hid hfind1
  refine ⟨?_, ?_, ?_, ?_⟩
  · intro hs
    simp only [StopGithubRepoScheduler_post, hfind]
    rw [if_pos hs]
  · intro hs
    simp only [RecoverGithubRepoScheduler_post, hfind]
    rw [if_pos hs]
  · intro hs
    refine ⟨by rw [hstop_post hs], ?_, ?_⟩
    · rw [hstop_post hs]
      rw [hrecover_post]
    · refine ⟨recover_scheduler_update cronNext time2date now (stop_scheduler_update item),
        ?_, rfl, rfl, by omega⟩
      rw [hstop_post hs]
      rw [hrecover_post]
      exact hfind2
  · intro hs
    rw [hstop_post hs]
    simp only [StopGithubRepoScheduler_post, hfind1]
    rw [if_pos (by simp [stop_scheduler_update])]

theorem stop_recover_state_transitions_witness :
    (find_github_repo_scheduler
        [{ id := "0123456789abcdef01234567", name := "n", repo_owner := "o",
           repo_name := "r", cron := "*/5 * * * *", monitored_events := [],
           run_number := 2, last_run_date := "-", last_run_time := 0,
           next_run_date := "-", status := SchedulerStatus.RUNNING }]
        "0123456789abcdef01234567"
      = some { id := "0123456789abcdef01234567", name := "n", repo_owner := "o",
               repo_name := "r", cron := "*/5 * * * *", monitored_events := [],
               run_number := 2, last_run_date := "-", last_run_time := 0,
               next_run_date := "-", status := SchedulerStatus.RUNNING }
      ∧ ("0123456789abcdef01234567" : String).length = 24
      ∧ (0 : Int) ≤ ((fun _ _ => (60 : Int)) : String → Int → Int) "*/5 * * * *" 0)
    ∧ (((StopGithubRepoScheduler_post
          [{ id := "0123456789abcdef01234567", name := "n", repo_owner := "o",
             repo_name := "r", cron := "*/5 * * * *", monitored_events := [],
             run_number := 2, last_run_date := "-", last_run_time := 0,
             next_run_date := "-", status := SchedulerStatus.RUNNING }]
          "0123456789abcdef01234567").2 = none
      ∧ (RecoverGithubRepoScheduler_post ((fun _ _ => (60 : Int)) : String → Int → Int)
          (fun t => toString t) 0
          (StopGithubRepoScheduler_post
            [{ id := "0123456789abcdef01234567", name := "n", repo_owner := "o",
               repo_name := "r", cron := "*/5 * * * *", monitored_events := [],
               run_number := 2, last_run_date := "-", last_run_time := 0,
               next_run_date := "-", status := SchedulerStatus.RUNNING }]
            "0123456789abcdef01234567").1 "0123456789abcdef01234567").2 = none
      ∧ ∃ item2,
          find_github_repo_scheduler
            (RecoverGithubRepoScheduler_post ((fun _ _ => (60 : Int)) : String → Int → Int)
              (fun t => toString t) 0
              (StopGithubRepoScheduler_post
                [{ id := "0123456789abcdef01234567", name := "n", repo_owner := "o",
                   repo_name := "r", cron := "*/5 * * * *", monitored_events := [],
                   run_number := 2, last_run_date := "-", last_run_time := 0,
                   next_run_date := "-", status := SchedulerStatus.RUNNING }]
                "0123456789abcdef01234567").1 "0123456789abcdef01234567").1
            "0123456789abcdef01234567" = some item2
          ∧ item2.status = SchedulerStatus.RUNNING
          ∧ item2.next_run_date = (fun t => toString t) ((0 : Int) + ((fun _ _ => (60 : Int)) : String → Int → Int) "*/5 * * * *" 0)
          ∧ (0 : Int) ≤ (0 : Int) + ((fun _ _ => (60 : Int)) : String → Int → Int) "*/5 * * * *" 0)
      ∧ (StopGithubRepoScheduler_post
          (StopGithubRepoScheduler_post
            [{ id := "0123456789abcdef01234567", name := "n", repo_owner := "o",
               repo_name := "r", cron := "*/5 * * * *", monitored_events := [],
               run_number := 2, last_run_date := "-", last_run_time := 0,
               next_run_date := "-", status := SchedulerStatus.RUNNING }]
            "0123456789abcdef01234567").1 "0123456789abcdef01234567").2
        = some ErrorMsg.SchedulerStatusNotRunning) :=
  ⟨⟨by decide, by decide, by decide⟩,
   (stop_recover_state_transitions ((fun _ _ => (60 : Int)) : String → Int → Int)
      (fun t => toString t) 0
      [{ id := "0123456789abcdef01234567", name := "n", repo_owner := "o",
         repo_name := "r", cron := "*/5 * * * *", monitored_events := [],
         run_number := 2, last_run_date := "-", last_run_time := 0,
         next_run_date := "-", status := SchedulerStatus.RUNNING }]
      "0123456789abcdef01234567"
      { id := "0123456789abcdef01234567", name := "n", repo_owner := "o",
        repo_name := "r", cron := "*/5 * * * *", monitored_events := [],
        run_number := 2, last_run_date := "-", last_run_time := 0,
        next_run_date := "-", status := SchedulerStatus.RUNNING }
      (by decide) (by decide) (by decide)).2.2.1 rfl,
   (stop_recover_state_transitions ((fun _ _ => (60 : Int)) : String → Int → Int)
      (fun t => toString t) 0
      [{ id := "0123456789abcdef01234567", name := "n", repo_owner := "o",
         repo_name := "r", cron := "*/5 * * * *", monitored_events := [],
         run_number := 2, last_run_date := "-", last_run_time := 0,
         next_run_date := "-", status := SchedulerStatus.RUNNING }]
      "0123456789abcdef01234567"
      { id := "0123456789abcdef01234567", name := "n", repo_owner := "o",
        repo_name := "r", cron := "*/5 * * * *", monitored_events := [],
        run_number := 2, last_run_date := "-", last_run_time := 0,
        next_run_date := "-", status := SchedulerStatus.RUNNING }
      (by decide) (by decide) (by decide)).2.2.2 rfl⟩

/-- Claim C6 (counterexample): a tick-triggered submission whose enqueue on
the worker substrate fails still mutates the run counter.  The submit helper
returns the enqueue error, and `github_repo_cron_run` ignores that result
and increments the counter from 0 to 1 anyway. -/
theorem run_counter_incremented_on_failed_enqueue :
    (submit_github_repo_task [] "t1" (Except.error "boom")
        { task_id := "", name := "GitHub仓库监控-n", repo_owner := "o", repo_name := "r",
          start_time := "-", end_time := "-", github_repo_scheduler_id := "s1",
          status := TaskStatus.WAITING, celery_id := "" }).2 = Except.error "boom"
    ∧ (github_repo_cron_run ((fun _ _ => (30 : Int)) : String → Int → Int) (fun _ => "d")
        "cd" 1000 "t1" (Except.error "boom") []
        { id := "s1", name := "n", repo_owner := "o", repo_name := "r",
          cron := "*/5 * * * *", monitored_events := [], run_number := 0,
          last_run_date := "-", last_run_time := 0, next_run_date := "-",
          status := SchedulerStatus.RUNNING }).1.run_number = 1 :=
  ⟨rfl, rfl⟩

/-- Claim C6 (amended): the run counter and last-run timestamp are mutated
by every tick-triggered fire — the enqueue outcome of the submission is
ignored by `github_repo_cron_run`, so a failed enqueue mutates them too —
and by no other operation: update, stop and recover preserve both fields,
creation initializes them to zero, and across every scheduler operation the
run counter never decreases. -/
theorem run_counter_mutation_amended
    (cronNext : String → Int → Int) (time2date : Int → String) (curr_date : String)
    (now : Int) (newId newId2 : String) (enqueue : Except String String)
    (store : List TaskRecord) (item : SchedulerItem)
    (check_flag : Bool) (next_sec : Int)
    (name repo_owner repo_name cron : String) (monitored_events : List String) :
    ((github_repo_cron_run cronNext time2date curr_date now newId enqueue store item).1.run_number
        = item.run_number + 1
      ∧ (github_repo_cron_run cronNext time2date curr_date now newId enqueue store item).1.last_run_time
        = now)
    ∧ (∀ i2, UpdateGithubRepoScheduler_post time2date now check_flag next_sec
          name repo_owner repo_name cron monitored_events item = some i2 →
        i2.run_number = item.run_number ∧ i2.last_run_time = item.last_run_time)
    ∧ ((stop_scheduler_update item).run_number = item.run_number
      ∧ (stop_scheduler_update item).last_run_time = item.last_run_time)
    ∧ ((recover_scheduler_update cronNext time2date now item).run_number = item.run_number
      ∧ (recover_scheduler_update cronNext time2date now item).last_run_time = item.last_run_time)
    ∧ (∀ entry, AddGithubRepoScheduler_post time2date now check_flag next_sec newId2
          name repo_owner repo_name cron monitored_events = some entry →
        entry.run_number = 0 ∧ entry.last_run_time = 0)
    ∧ (∀ op : SchedulerOp, item.run_number ≤ (applySchedulerOp op item).run_number) := by
  refine ⟨⟨rfl, rfl⟩,
    update_scheduler_preserves_counters time2date now check_flag next_sec
      name repo_owner repo_name cron monitored_events item,
    ⟨rfl, rfl⟩, ⟨rfl, rfl⟩, ?_, ?_⟩
  · intro entry h
    unfold AddGithubRepoScheduler_post at h
    split_ifs at h <;>
      first
      | exact Option.noConfusion h
      | (rw [← Option.some.inj h]; exact ⟨rfl, rfl⟩)
  · intro op
    cases op with
    | tick c t d n ni enq s =>
        simp only [applySchedulerOp]
        by_cases hf : item.status = SchedulerStatus.RUNNING ∧ c item.cron n < 60
            ∧ (n - item.last_run_time).natAbs > 180
        · rw [github_repo_scheduler_item_fired c t d n ni enq s item hf.1 hf.2.1 hf.2.2]
          show item.run_number ≤ item.run_number + 1
          omega
        · rw [github_repo_scheduler_item_not_fired c t d n ni enq s item hf]
    | updateEntry t n cf ns nm ro rn cr me =>
        simp only [applySchedulerOp]
        cases hu : UpdateGithubRepoScheduler_post t n cf ns nm ro rn cr me item with
        | none => exact le_refl _
        | some i =>
            exact le_of_eq
              ((update_scheduler_preserves_counters t n cf ns nm ro rn cr me item i hu).1).symm
    | stopEntry => exact le_refl _
    | recoverEntry c t n => exact le_refl _

theorem run_counter_mutation_amended_witness :
    (UpdateGithubRepoScheduler_post (fun _ => "d") 0 true 60 "nn" "" "" "" []
        { id := "s1", name := "n", repo_owner := "o", repo_name := "r",
          cron := "*/5 * * * *", monitored_events := ["PushEvent"], run_number := 5,
          last_run_date := "-", last_run_time := 7, next_run_date := "-",
          status := SchedulerStatus.RUNNING }
      = some { id := "s1", name := "nn", repo_owner := "o", repo_name := "r",
               cron := "*/5 * * * *", monitored_events := ["PushEvent"], run_number := 5,
               last_run_date := "-", last_run_time := 7, next_run_date := "-",
               status := SchedulerStatus.RUNNING })
    ∧ (({ id := "s1", name := "nn", repo_owner := "o", repo_name := "r",
          cron := "*/5 * * * *", monitored_events := ["PushEvent"], run_number := 5,
          last_run_date := "-", last_run_time := 7, next_run_date := "-",
          status := SchedulerStatus.RUNNING } : SchedulerItem).run_number = 5
      ∧ ({ id := "s1", name := "nn", repo_owner := "o", repo_name := "r",
           cron := "*/5 * * * *", monitored_events := ["PushEvent"], run_number := 5,
           last_run_date := "-", last_run_time := 7, next_run_date := "-",
           status := SchedulerStatus.RUNNING } : SchedulerItem).last_run_time = 7) :=
  ⟨by decide,
   (run_counter_mutation_amended ((fun _ _ => (30 : Int)) : String → Int → Int)
      (fun _ => "d") "cd" 0 "t1" "new1" (Except.ok "c") []
      { id := "s1", name := "n", repo_owner := "o", repo_name := "r",
        cron := "*/5 * * * *", monitored_events := ["PushEvent"], run_number := 5,
        last_run_date := "-", last_run_time := 7, next_run_date := "-",
        status := SchedulerStatus.RUNNING }
      true 60 "nn" "" "" "" []).2.1
     { id := "s1", name := "nn", repo_owner := "o", repo_name := "r",
       cron := "*/5 * * * *", monitored_events := ["PushEvent"], run_number := 5,
       last_run_date := "-", last_run_time := 7, next_run_date := "-",
       status := SchedulerStatus.RUNNING } (by decide)⟩

/-- Claim C10 (counterexample): with a configured webhook URL and a
successful HTTP round-trip whose parsed response body is the empty JSON
object, `send_text` returns that object unchanged — a dictionary with no
errcode key — refuting the claim that every returned dictionary contains
one. -/
theorem dingtalk_send_success_lacks_errcode :
    (DingTalkWebhook.send_text "https://oapi.example/robot" "" "ts" "sg"
        (Except.ok []) "hello" [] false).2 = []
    ∧ (DingTalkWebhook.send_text "https://oapi.example/robot" "" "ts" "sg"
        (Except.ok []) "hello" [] false).2.lookup "errcode" = none :=
  ⟨rfl, rfl⟩

/-- Claim C10 (amended): every DingTalk send operation is total and always
returns a dictionary; when the webhook URL is unconfigured or the HTTP
request fails it returns a dictionary whose errcode entry is -1; on a
successful round-trip it returns the server's parsed JSON object verbatim
(which contains an errcode entry only if the server sent one). -/
theorem dingtalk_send_total_amended
    (webhook_url secret timestamp sign : String) (http_result : Except String DDict)
    (content title text message_url : String) (at_mobiles : List String)
    (is_at_all : Bool) (pic_url : Option String) :
    ((DingTalkWebhook.send_text webhook_url secret timestamp sign http_result content
        at_mobiles is_at_all).2.lookup "errcode" = some (DVal.int (-1))
      ∨ ∃ d, http_result = Except.ok d ∧ webhook_url ≠ ""
          ∧ (DingTalkWebhook.send_text webhook_url secret timestamp sign http_result content
              at_mobiles is_at_all).2 = d)
    ∧ ((DingTalkWebhook.send_markdown webhook_url secret timestamp sign http_result title
        content at_mobiles is_at_all).2.lookup "errcode" = some (DVal.int (-1))
      ∨ ∃ d, http_result = Except.ok d ∧ webhook_url ≠ ""
          ∧ (DingTalkWebhook.send_markdown webhook_url secret timestamp sign http_result title
              content at_mobiles is_at_all).2 = d)
    ∧ ((DingTalkWebhook.send_link webhook_url secret timestamp sign http_result title
        text message_url pic_url).2.lookup "errcode" = some (DVal.int (-1))
      ∨ ∃ d, http_result = Except.ok d ∧ webhook_url ≠ ""
          ∧ (DingTalkWebhook.send_link webhook_url secret timestamp sign http_result title
              text message_url pic_url).2 = d) := by
  refine ⟨?_, ?_, ?_⟩
  · by_cases hu : webhook_url = ""
    · subst hu
      exact Or.inl rfl
    · cases http_result with
      | ok d =>
          refine Or.inr ⟨d, rfl, hu, ?_⟩
          unfold DingTalkWebhook.send_text
          rw [if_neg hu]
      | error e =>
          left
          unfold DingTalkWebhook.send_text
          rw [if_neg hu]
          rfl
  · by_cases hu : webhook_url = ""
    · subst hu
      exact Or.inl rfl
    · cases http_result with
      | ok d =>
          refine Or.inr ⟨d, rfl, hu, ?_⟩
          unfold DingTalkWebhook.send_markdown
          rw [if_neg hu]
      | error e =>
          left
          unfold DingTalkWebhook.send_markdown
          rw [if_neg hu]
          rfl
  · by_cases hu : webhook_url = ""
    · subst hu
      exact Or.inl rfl
    · cases http_result with
      | ok d =>
          refine Or.inr ⟨d, rfl, hu, ?_⟩
          unfold DingTalkWebhook.send_link
          rw [if_neg hu]
      | error e =>
          left
          unfold DingTalkWebhook.send_link
          rw [if_neg hu]
          rfl
